import Mathlib

/-!
Shallow embedding of `inbox/actions/backends/generic.py` (nylas sync-engine,
generic IMAP action backend) and proofs about its action handlers.

The datastore is modelled as explicit lists of rows, the pooled connection
session as an explicit trace of protocol calls issued plus a flag recording
whether a session was acquired at all, and exceptions as `Except`.
External collaborators that are not part of the given source file
(`imap_folder_path`, the crispin client primitives, `create_email`) are
modelled from the specification text and marked as such in doc comments.
-/

namespace SyncEngine

/-- A row of the `ImapUid` table joined with `Folder`: one remote UID of a
message inside one folder.  Embeds the result rows of the query in
`uids_by_folder`. -/
structure ImapUidRow where
  message_id : Nat
  folder_name : String
  msg_uid : Nat
  deriving Repr, DecidableEq

/-- One step of inserting a `(folder_name, uid)` pair into the
`defaultdict(list)` mapping built by `uids_by_folder`: append the uid to the
existing entry for the folder, or create a new entry at the end (Python
dicts preserve insertion order). -/
def addToMapping (m : List (String × List Nat)) (folder : String) (uid : Nat) :
    List (String × List Nat) :=
  match m with
  | [] => [(folder, [uid])]
  | (f, us) :: rest =>
      if f = folder then (f, us ++ [uid]) :: rest
      else (f, us) :: addToMapping rest folder uid

/-- Embeds `uids_by_folder(message_id, db_session)`: query all
`(msg_uid, folder_name)` rows of the message and group them into a
folder-name-to-uid-list mapping. -/
def uids_by_folder (message_id : Nat) (rows : List ImapUidRow) :
    List (String × List Nat) :=
  (rows.filter (fun r => r.message_id = message_id)).foldl
    (fun m r => addToMapping m r.folder_name r.msg_uid) []

/-- A call issued against the Connection Session (crispin client / its
underlying IMAP connection).  Handlers record the sequence of such calls
they issue. -/
inductive SessionCall where
  | selectFolder (name : String)
  | addFlags (uids : List Nat) (flags : List String)
  | removeFlags (uids : List Nat) (flags : List String)
  | copy (uids : List Nat) (dest : String)
  | deleteUids (uids : List Nat)
  | createFolderCall (name : String)
  | renameFolderCall (oldName newName : String)
  | deleteFolderCall (name : String)
  | folderNamesCall
  | findByHeaderCall (headerName headerValue : String)
  | saveDraftCall (msgIdHeader : String)
  | deleteDraftCall (msgIdHeader : String)
  | deleteSentMessageCall (msgIdHeader : String) (deleteMultiple : Bool)
  | createMessageCall (msgIdHeader : String)
  deriving Repr, DecidableEq

/-- The observable outcome of one handler invocation that returns normally:
the log lines emitted, whether a connection session was acquired from the
pool, and the trace of Connection Session calls issued. -/
structure ActionResult where
  warnings : List String
  infos : List String
  sessionAcquired : Bool
  calls : List SessionCall
  deriving Repr, DecidableEq

/-- Embeds `_set_flag(account_id, message_id, flag_name, is_add)`.  The
datastore read is the `rows` argument.  With an empty UID mapping it logs a
warning and returns before touching the connection pool; otherwise it
selects each folder of the mapping and adds or removes the flag on that
folder entire uid list. -/
def _set_flag (rows : List ImapUidRow) (account_id : Nat) (message_id : Nat)
    (flag_name : String) (is_add : Bool) : ActionResult :=
  let uids_for_message := uids_by_folder message_id rows
  if uids_for_message = [] then
    { warnings := ["No UIDs found for message"], infos := [],
      sessionAcquired := false, calls := [] }
  else
    { warnings := [], infos := [], sessionAcquired := true,
      calls := uids_for_message.flatMap (fun p =>
        [SessionCall.selectFolder p.1,
         if is_add then SessionCall.addFlags p.2 [flag_name]
         else SessionCall.removeFlags p.2 [flag_name]]) }

/-- Embeds `set_remote_starred(account, message_id, starred)`:
`_set_flag(account, message_id, chr92Flagged, starred)` where the flag
string is backslash-Flagged. -/
def set_remote_starred (rows : List ImapUidRow) (account : Nat)
    (message_id : Nat) (starred : Bool) : ActionResult :=
  _set_flag rows account message_id "\\Flagged" starred

/-- Embeds `set_remote_unread(account, message_id, unread)`:
`_set_flag(account, message_id, backslash-Seen, not unread)`. -/
def set_remote_unread (rows : List ImapUidRow) (account : Nat)
    (message_id : Nat) (unread : Bool) : ActionResult :=
  _set_flag rows account message_id "\\Seen" (!unread)

/-- Embeds `remote_move(account_id, message_id, destination)`.  Empty UID
mapping: warn and return without a session.  Otherwise, per source folder:
select it, copy its uids to the destination, then delete the source uids. -/
def remote_move (rows : List ImapUidRow) (account_id : Nat) (message_id : Nat)
    (destination : String) : ActionResult :=
  let uids_for_message := uids_by_folder message_id rows
  if uids_for_message = [] then
    { warnings := ["No UIDs found for message"], infos := [],
      sessionAcquired := false, calls := [] }
  else
    { warnings := [], infos := [], sessionAcquired := true,
      calls := uids_for_message.flatMap (fun p =>
        [SessionCall.selectFolder p.1,
         SessionCall.copy p.2 destination,
         SessionCall.deleteUids p.2]) }

/-- All uids copied into folder `dest` by a trace of session calls, in
order, occurrences preserved. -/
def copiedToDest : List SessionCall → String → List Nat
  | [], _ => []
  | SessionCall.copy uids d :: rest, dest =>
      (if d = dest then uids else []) ++ copiedToDest rest dest
  | _ :: rest, dest => copiedToDest rest dest

/-- Replace every slash of a string by the given separator string,
character by character. -/
def replaceSlashes (separator : String) (s : String) : String :=
  String.mk (s.data.flatMap (fun c => if c = '/' then separator.data else [c]))

/-- Modelled from the spec: `imap_folder_path` lives in
`inbox/util/misc.py`, which is not part of the given source.  Per the spec
(section 4.2), the display name is rewritten by substituting the local
hierarchy separator (the slash) for the provider separator and prepending
the provider prefix, e.g. name A/B, separator dot, prefix INBOX-dot gives
INBOX.A.B. -/
def imap_folder_path (path : String) (separator : String)
    (prefixStr : String) : String :=
  prefixStr ++ replaceSlashes separator path

/-- The providers treated by the backend as virtual / flat-namespace: the
literal list in the source conditions `account_provider not in
['gmail', 'eas']`. -/
def flatNamespaceProviders : List String := ["gmail", "eas"]

/-- The folder-name translation branch shared verbatim by
`remote_create_folder`, `remote_update_folder` and `remote_delete_folder`:
for providers outside gmail/eas, translate via `imap_folder_path` with the
session folder separator and folder prefix; for gmail/eas keep the display
name unchanged. -/
def translateFolderName (account_provider : String) (display_name : String)
    (separator : String) (prefixStr : String) : String :=
  if account_provider ∉ flatNamespaceProviders then
    imap_folder_path display_name separator prefixStr
  else
    display_name

/-- A `Category` row: identity and local display name. -/
structure Category where
  id : Nat
  display_name : String
  deriving Repr, DecidableEq

/-- The write-back step shared by the folder handlers: set the display
name of the category with the given id to the translated name. -/
def updateDisplayName (cats : List Category) (category_id : Nat)
    (nd : String) : List Category :=
  cats.map (fun c =>
    if c.id = category_id then { c with display_name := nd } else c)

/-- The per-account state the crispin client exposes without a network
round trip in this model: the provider folder separator and folder prefix,
and the role-to-native-folder-names mapping returned by `folder_names()`. -/
structure CrispinEnv where
  separator : String
  prefixStr : String
  folderRoles : List (String × List String)
  deriving Repr, DecidableEq

/-- Looks a role up in the `folder_names()` mapping, embedding both the
membership test `role in folder_names()` (`isSome`) and the indexing
`folder_names()[role]`. -/
def lookupRole (env : CrispinEnv) (role : String) : Option (List String) :=
  (env.folderRoles.find? (fun p => p.1 = role)).map (fun p => p.2)

/-- Outcome of the remote `delete_folder` call as seen by the executor:
success, an `IMAP4.error` protocol condition (the folder is already gone),
or any other raised error. -/
inductive FolderDeleteOutcome where
  | ok
  | imapError
  | otherError
  deriving Repr, DecidableEq

/-- Embeds `remote_create_folder(account_id, category_id)`.  Reads the
account provider and the category display name; translates the name for
non-gmail/eas providers; issues the remote create; writes the translated
name back onto the category row iff it differs.  A missing category row
makes the Python attribute access raise, modelled as `Except.error`. -/
def remote_create_folder (account_provider : String) (env : CrispinEnv)
    (cats : List Category) (category_id : Nat) :
    Except String (List Category × ActionResult) :=
  match cats.find? (fun c => c.id = category_id) with
  | none => Except.error "AttributeError: category row missing"
  | some category =>
      let display_name := category.display_name
      let new_display_name :=
        translateFolderName account_provider display_name
          env.separator env.prefixStr
      let cats' :=
        if new_display_name ≠ display_name then
          updateDisplayName cats category_id new_display_name
        else cats
      Except.ok (cats',
        { warnings := [], infos := [], sessionAcquired := true,
          calls := [SessionCall.createFolderCall new_display_name] })

/-- Embeds `remote_update_folder(account_id, category_id, old_name)`: same
translation, then a remote rename from `old_name` to the translated new
name, then the same conditional write-back. -/
def remote_update_folder (account_provider : String) (env : CrispinEnv)
    (cats : List Category) (category_id : Nat) (old_name : String) :
    Except String (List Category × ActionResult) :=
  match cats.find? (fun c => c.id = category_id) with
  | none => Except.error "AttributeError: category row missing"
  | some category =>
      let display_name := category.display_name
      let new_display_name :=
        translateFolderName account_provider display_name
          env.separator env.prefixStr
      let cats' :=
        if new_display_name ≠ display_name then
          updateDisplayName cats category_id new_display_name
        else cats
      Except.ok (cats',
        { warnings := [], infos := [], sessionAcquired := true,
          calls := [SessionCall.renameFolderCall old_name new_display_name] })

/-- Embeds `remote_delete_folder(account_id, category_id)`.  The remote
delete runs inside `try ... except IMAP4.error: pass`, so an IMAP protocol
condition (folder already deleted remotely) is swallowed; any other raised
error propagates before the local delete.  After a successful or swallowed
remote outcome, the local category row is deleted.  The `outcome` argument
models what the remote `delete_folder` call does for a given native name.
On a propagated error, the returned categories are unchanged. -/
def remote_delete_folder (account_provider : String) (env : CrispinEnv)
    (outcome : String → FolderDeleteOutcome) (cats : List Category)
    (category_id : Nat) :
    Except (String × List Category) (List Category × ActionResult) :=
  match cats.find? (fun c => c.id = category_id) with
  | none => Except.error ("AttributeError: category row missing", cats)
  | some category =>
      let display_name :=
        translateFolderName account_provider category.display_name
          env.separator env.prefixStr
      match outcome display_name with
      | FolderDeleteOutcome.otherError =>
          Except.error ("ProtocolFailure", cats)
      | _ =>
          Except.ok (cats.filter (fun c => c.id ≠ category_id),
            { warnings := [], infos := [], sessionAcquired := true,
              calls := [SessionCall.deleteFolderCall display_name] })

/-- An `Account` row; only the provider kind is read by this backend. -/
structure Account where
  provider : String
  deriving Repr, DecidableEq

/-- A `Message` row, with the fields `_create_email` and the draft/sent
handlers read.  Attachments are abstracted to their block identities. -/
structure Message where
  attachments : List Nat
  from_addr : List (String × String)
  reply_to : List (String × String)
  inbox_uid : String
  to_addr : List (String × String)
  cc_addr : List (String × String)
  bcc_addr : List (String × String)
  subject : String
  body : String
  in_reply_to : String
  references : List String
  message_id_header : String
  public_id : String
  version : Nat
  deriving Repr, DecidableEq

/-- The wire representation returned by the external `create_email`
builder, holding the fields the call site in `_create_email` passes.
Modelled from the spec: `create_email` (in `inbox/sendmail/message.py`) is
not part of the given source; per the spec the builder produces a canonical
wire representation, and drafts saved from it are subsequently matched by
the Message-Id header of the source message (supersession, sections 4.4 and
the glossary), so the built message carries a `msgIdHeader` field equal to
the `message_id_header` of the `Message` row it was built from (in the real
system both are derived from `inbox_uid`). -/
structure MimeMsg where
  from_name : String
  from_email : String
  reply_to : List (String × String)
  inbox_uid : String
  to_addr : List (String × String)
  cc_addr : List (String × String)
  bcc_addr : List (String × String)
  subject : String
  html : String
  in_reply_to : String
  references : List String
  attachments : List Nat
  msgIdHeader : String
  deriving Repr, DecidableEq

/-- Modelled from the spec: `generate_attachments` (MIME attachment
assembly, external per section 1) is not part of the given source; it turns
the block list into the attachment list of the wire form, kept abstract as
the identity on block identities. -/
def generate_attachments (blocks : List Nat) : List Nat := blocks

/-- Embeds `_create_email(account, message)`.  The Python argument may be
`None` (the callers pass the result of a `.get()`): then the very first
attribute access `message.attachments` raises, modelled as `Except.error`.
With an empty `from_addr` the unpacking `message.from_addr[0]` raises an
`IndexError`.  Otherwise the wire form is built from the message fields. -/
def _create_email (account : Account) (message : Option Message) :
    Except String MimeMsg :=
  match message with
  | none => Except.error "AttributeError: NoneType has no attribute"
  | some m =>
      match m.from_addr with
      | [] => Except.error "IndexError: from_addr is empty"
      | (from_name, from_email) :: _ =>
          Except.ok
            { from_name := from_name, from_email := from_email,
              reply_to := m.reply_to, inbox_uid := m.inbox_uid,
              to_addr := m.to_addr, cc_addr := m.cc_addr,
              bcc_addr := m.bcc_addr, subject := m.subject,
              html := m.body, in_reply_to := m.in_reply_to,
              references := m.references,
              attachments := generate_attachments m.attachments,
              msgIdHeader := m.message_id_header }

/-- Looks a message row up by id, embedding
`db_session.query(Message).get(message_id)`. -/
def getMessage (db : List (Nat × Message)) (message_id : Nat) :
    Option Message :=
  (db.find? (fun p => p.1 = message_id)).map (fun p => p.2)

/-- Modelled from the spec: the crispin `find_by_header` primitive
(find-message-by-header, section 6) is not part of the given source.  The
remote drafts folder is modelled as the ordered list of Message-Id headers
of the drafts it holds; the search reports whether some draft carries the
header. -/
def find_by_header (drafts : List String) (headerValue : String) : Bool :=
  drafts.contains headerValue

/-- Modelled from the spec: the crispin `delete_draft` primitive
(delete-by-header with delete-first-match-only mode, sections 4.4 and 6) is
not part of the given source.  It deletes the first draft whose Message-Id
header matches, and reports whether one was found. -/
def delete_draft (drafts : List String) (headerValue : String) :
    Bool × List String :=
  if drafts.contains headerValue then (true, drafts.erase headerValue)
  else (false, drafts)

/-- Modelled from the spec: the crispin `save_draft` primitive (append a
message to the selected drafts folder, section 6) is not part of the given
source.  It appends the built message, addressable thereafter by its
Message-Id header. -/
def save_draft (drafts : List String) (mimemsg : MimeMsg) : List String :=
  drafts ++ [mimemsg.msgIdHeader]

/-- Embeds `remote_save_draft(account_id, message_id)`.  Builds the wire
form (raising on a missing row), then: no drafts folder means an info log
and a normal return; otherwise select the first drafts folder and append
the draft.  Returns the new remote drafts state alongside the outcome. -/
def remote_save_draft (account : Account) (db : List (Nat × Message))
    (env : CrispinEnv) (drafts : List String) (message_id : Nat) :
    Except String (List String × ActionResult) :=
  match _create_email account (getMessage db message_id) with
  | Except.error e => Except.error e
  | Except.ok mimemsg =>
      match lookupRole env "drafts" with
      | none =>
          Except.ok (drafts,
            { warnings := [],
              infos := ["Account has no detected drafts folder; not saving draft"],
              sessionAcquired := true,
              calls := [SessionCall.folderNamesCall] })
      | some [] => Except.error "IndexError: empty drafts folder list"
      | some (folder_name :: _) =>
          Except.ok (save_draft drafts mimemsg,
            { warnings := [], infos := [], sessionAcquired := true,
              calls := [SessionCall.folderNamesCall,
                SessionCall.selectFolder folder_name,
                SessionCall.saveDraftCall mimemsg.msgIdHeader] })

/-- Embeds `remote_update_draft(account_id, message_id,
old_message_id_header)`, the supersession protocol.  Builds the wire form
(raising on a missing row); no drafts folder means an info log and a
normal return.  Otherwise: select the drafts folder; search for an
existing draft carrying the new Message-Id header and append the new draft
only when none is found; then delete at most one draft matching the old
header.  Returns the new remote drafts state alongside the outcome. -/
def remote_update_draft (account : Account) (db : List (Nat × Message))
    (env : CrispinEnv) (drafts : List String) (message_id : Nat)
    (old_message_id_header : String) :
    Except String (List String × ActionResult) :=
  match getMessage db message_id with
  | none => Except.error "AttributeError: NoneType has no attribute"
  | some message =>
      let message_id_header := message.message_id_header
      match _create_email account (some message) with
      | Except.error e => Except.error e
      | Except.ok mimemsg =>
          match lookupRole env "drafts" with
          | none =>
              Except.ok (drafts,
                { warnings := [],
                  infos := ["Account has no drafts folder. Will not save draft."],
                  sessionAcquired := true,
                  calls := [SessionCall.folderNamesCall] })
          | some [] => Except.error "IndexError: empty drafts folder list"
          | some (folder_name :: _) =>
              let existing_new_draft := find_by_header drafts message_id_header
              let drafts1 :=
                if !existing_new_draft then save_draft drafts mimemsg
                else drafts
              let saveCalls :=
                if !existing_new_draft then
                  [SessionCall.saveDraftCall mimemsg.msgIdHeader]
                else []
              let infos1 :=
                if !existing_new_draft then []
                else ["Draft has been saved, will not create a duplicate."]
              let deleted := delete_draft drafts1 old_message_id_header
              let infos2 :=
                if deleted.1 then ["Cleaned up old draft"] else []
              Except.ok (deleted.2,
                { warnings := [], infos := infos1 ++ infos2,
                  sessionAcquired := true,
                  calls := [SessionCall.folderNamesCall,
                    SessionCall.selectFolder folder_name,
                    SessionCall.findByHeaderCall "Message-Id" message_id_header]
                    ++ saveCalls
                    ++ [SessionCall.deleteDraftCall old_message_id_header] })

/-- Embeds `remote_delete_draft(account_id, inbox_uid, message_id_header)`:
no drafts folder means an info log and a normal return; otherwise delete
the (first) draft matching the header.  The `inbox_uid` parameter is kept
because the Python function takes it, although its body never reads it. -/
def remote_delete_draft (account_id : Nat) (inbox_uid : String)
    (message_id_header : String) (env : CrispinEnv) (drafts : List String) :
    List String × ActionResult :=
  match lookupRole env "drafts" with
  | none =>
      (drafts,
        { warnings := [],
          infos := ["Account has no detected drafts folder; not deleting draft"],
          sessionAcquired := true,
          calls := [SessionCall.folderNamesCall] })
  | some _ =>
      ((delete_draft drafts message_id_header).2,
        { warnings := [], infos := [], sessionAcquired := true,
          calls := [SessionCall.folderNamesCall,
            SessionCall.deleteDraftCall message_id_header] })

/-- Embeds `remote_delete_sent(account_id, message_id_header,
delete_multiple)`: no sent folder means an info log and a normal return;
otherwise issue `delete_sent_message` with the given multiplicity mode. -/
def remote_delete_sent (account_id : Nat) (message_id_header : String)
    (delete_multiple : Bool) (env : CrispinEnv) : ActionResult :=
  match lookupRole env "sent" with
  | none =>
      { warnings := [],
        infos := ["Account has no detected sent folder; not deleting message"],
        sessionAcquired := true,
        calls := [SessionCall.folderNamesCall] }
  | some _ =>
      { warnings := [], infos := [], sessionAcquired := true,
        calls := [SessionCall.folderNamesCall,
          SessionCall.deleteSentMessageCall message_id_header delete_multiple] }

/-- Embeds `remote_save_sent(account_id, message_id)`.  Unlike the draft
handlers this one checks the message row: a missing row is an info log and
a normal return before any pool acquisition.  Then: no sent folder means an
info log and a normal return; otherwise select the first sent folder and
append the message. -/
def remote_save_sent (account : Account) (db : List (Nat × Message))
    (env : CrispinEnv) (message_id : Nat) : Except String ActionResult :=
  match getMessage db message_id with
  | none =>
      Except.ok
        { warnings := [],
          infos := ["tried to create nonexistent message"],
          sessionAcquired := false, calls := [] }
  | some message =>
      match _create_email account (some message) with
      | Except.error e => Except.error e
      | Except.ok mimemsg =>
          match lookupRole env "sent" with
          | none =>
              Except.ok
                { warnings := [],
                  infos := ["Account has no detected sent folder; not saving message"],
                  sessionAcquired := true,
                  calls := [SessionCall.folderNamesCall] }
          | some [] => Except.error "IndexError: empty sent folder list"
          | some (folder_name :: _) =>
              Except.ok
                { warnings := [], infos := [], sessionAcquired := true,
                  calls := [SessionCall.folderNamesCall,
                    SessionCall.selectFolder folder_name,
                    SessionCall.createMessageCall mimemsg.msgIdHeader] }

/-- Number of `saveDraftCall` events (draft creations) in a trace. -/
def countSaveDrafts (calls : List SessionCall) : Nat :=
  (calls.filter (fun c =>
    match c with
    | SessionCall.saveDraftCall _ => true
    | _ => false)).length

/-- The display name currently recorded for a category id. -/
def displayNameOf (cats : List Category) (category_id : Nat) : Option String :=
  (cats.find? (fun c => c.id = category_id)).map (fun c => c.display_name)

/-! ## Theorems -/

/-- C1: for every message whose Remote-UID mapping is empty, each flag
action (`set_remote_starred`, `set_remote_unread`) and `remote_move` log a
warning and return normally without acquiring a connection session and
without issuing any session call; and the resolver `uids_by_folder` itself
returns an empty mapping, never an error, when no rows match the
message. -/
theorem c1_noop_on_empty_uid_mapping (rows : List ImapUidRow)
    (account message_id : Nat) (starred unread : Bool)
    (destination : String) :
    ((∀ r ∈ rows, r.message_id ≠ message_id) →
      uids_by_folder message_id rows = []) ∧
    (uids_by_folder message_id rows = [] →
      set_remote_starred rows account message_id starred =
        { warnings := ["No UIDs found for message"], infos := [],
          sessionAcquired := false, calls := [] } ∧
      set_remote_unread rows account message_id unread =
        { warnings := ["No UIDs found for message"], infos := [],
          sessionAcquired := false, calls := [] } ∧
      remote_move rows account message_id destination =
        { warnings := ["No UIDs found for message"], infos := [],
          sessionAcquired := false, calls := [] }) := by
  constructor
  · intro h
    unfold uids_by_folder
    have hf : rows.filter (fun r => r.message_id = message_id) = [] :=
      List.filter_eq_nil_iff.2 (fun r hr => by simpa using h r hr)
    rw [hf]
    rfl
  · intro h
    exact ⟨by simp [set_remote_starred, _set_flag, h],
      by simp [set_remote_unread, _set_flag, h],
      by simp [remote_move, h]⟩

/-- Witness for C1 at a concrete input: one UID row for another message. -/
theorem c1_noop_on_empty_uid_mapping_witness :
    uids_by_folder 1 [ImapUidRow.mk 2 "A" 7] = [] ∧
    set_remote_starred [ImapUidRow.mk 2 "A" 7] 1 1 true =
      { warnings := ["No UIDs found for message"], infos := [],
        sessionAcquired := false, calls := [] } ∧
    remote_move [ImapUidRow.mk 2 "A" 7] 1 1 "Archive" =
      { warnings := ["No UIDs found for message"], infos := [],
        sessionAcquired := false, calls := [] } :=
  ⟨(c1_noop_on_empty_uid_mapping [ImapUidRow.mk 2 "A" 7] 1 1 true true
      "Archive").1 (by decide),
   ((c1_noop_on_empty_uid_mapping [ImapUidRow.mk 2 "A" 7] 1 1 true true
      "Archive").2 (by decide)).1,
   (((c1_noop_on_empty_uid_mapping [ImapUidRow.mk 2 "A" 7] 1 1 true true
      "Archive").2 (by decide)).2).2⟩

/-- C4: folder name translation is a pure function of its arguments: for
gmail/eas the display name is returned unchanged, for every other provider
the slash separator is replaced by the provider separator and the provider
prefix is prepended; with separator dot and prefix INBOX-dot,
Work/Invoices becomes INBOX.Work.Invoices under a generic provider and
stays unchanged under gmail. -/
theorem c4_folder_translation (account_provider display_name separator
    prefixStr : String) :
    (account_provider ∈ flatNamespaceProviders →
      translateFolderName account_provider display_name separator prefixStr =
        display_name) ∧
    (account_provider ∉ flatNamespaceProviders →
      translateFolderName account_provider display_name separator prefixStr =
        prefixStr ++ replaceSlashes separator display_name) ∧
    translateFolderName "generic" "Work/Invoices" "." "INBOX." =
      "INBOX.Work.Invoices" ∧
    translateFolderName "gmail" "Work/Invoices" "." "INBOX." =
      "Work/Invoices" := by
  refine ⟨?_, ?_, by decide, by decide⟩
  · intro h
    simp [translateFolderName, h]
  · intro h
    simp [translateFolderName, imap_folder_path, h]

/-- Witness for C4 at concrete inputs, both provider classes. -/
theorem c4_folder_translation_witness :
    translateFolderName "gmail" "A/B" "." "INBOX." = "A/B" ∧
    translateFolderName "fastmail" "A/B" "." "INBOX." =
      "INBOX." ++ replaceSlashes "." "A/B" :=
  ⟨(c4_folder_translation "gmail" "A/B" "." "INBOX.").1 (by decide),
   (c4_folder_translation "fastmail" "A/B" "." "INBOX.").2.1 (by decide)⟩

/-- C5: with a non-empty Remote-UID mapping, `remote_move` handles each
source folder independently: select the folder, copy that folder uid set
to the destination, then delete the source uids (copy strictly before
delete within each folder); the uids copied into the destination are
exactly the concatenation of the per-folder uid sets, one copy per source
occurrence, not deduplicated. -/
theorem c5_move_copy_then_delete (rows : List ImapUidRow)
    (account_id message_id : Nat) (destination : String)
    (h : uids_by_folder message_id rows ≠ []) :
    remote_move rows account_id message_id destination =
      { warnings := [], infos := [], sessionAcquired := true,
        calls := (uids_by_folder message_id rows).flatMap (fun p =>
          [SessionCall.selectFolder p.1,
           SessionCall.copy p.2 destination,
           SessionCall.deleteUids p.2]) } ∧
    copiedToDest
        (remote_move rows account_id message_id destination).calls
        destination =
      (uids_by_folder message_id rows).flatMap (fun p => p.2) := by
  have h1 : remote_move rows account_id message_id destination =
      { warnings := [], infos := [], sessionAcquired := true,
        calls := (uids_by_folder message_id rows).flatMap (fun p =>
          [SessionCall.selectFolder p.1,
           SessionCall.copy p.2 destination,
           SessionCall.deleteUids p.2]) } := by
    simp [remote_move, h]
  refine ⟨h1, ?_⟩
  rw [h1]
  show copiedToDest ((uids_by_folder message_id rows).flatMap _) destination = _
  generalize uids_by_folder message_id rows = m
  induction m with
  | nil => rfl
  | cons p t ih =>
      simp only [List.flatMap_cons, List.cons_append, List.nil_append,
        copiedToDest, if_pos, ih]
      simp [List.flatMap] at ih
      simp [ih, List.flatMap]

/-- Witness for C5: a message in two folders, uids 5 and 9. -/
theorem c5_move_copy_then_delete_witness :
    remote_move [ImapUidRow.mk 1 "A" 5, ImapUidRow.mk 1 "B" 9] 1 1 "Dest" =
      { warnings := [], infos := [], sessionAcquired := true,
        calls := (uids_by_folder 1
            [ImapUidRow.mk 1 "A" 5, ImapUidRow.mk 1 "B" 9]).flatMap (fun p =>
          [SessionCall.selectFolder p.1,
           SessionCall.copy p.2 "Dest",
           SessionCall.deleteUids p.2]) } ∧
    copiedToDest
        (remote_move [ImapUidRow.mk 1 "A" 5, ImapUidRow.mk 1 "B" 9] 1 1
          "Dest").calls "Dest" =
      (uids_by_folder 1
        [ImapUidRow.mk 1 "A" 5, ImapUidRow.mk 1 "B" 9]).flatMap
        (fun p => p.2) :=
  c5_move_copy_then_delete [ImapUidRow.mk 1 "A" 5, ImapUidRow.mk 1 "B" 9]
    1 1 "Dest" (by decide)

/-- C7: with a non-empty Remote-UID mapping, `set_remote_starred` selects
each folder of the mapping and adds or removes the backslash-Flagged flag
on exactly that folder uid set. -/
theorem c7_starred_flags_per_folder (rows : List ImapUidRow)
    (account message_id : Nat) (starred : Bool)
    (h : uids_by_folder message_id rows ≠ []) :
    set_remote_starred rows account message_id starred =
      { warnings := [], infos := [], sessionAcquired := true,
        calls := (uids_by_folder message_id rows).flatMap (fun p =>
          [SessionCall.selectFolder p.1,
           if starred then SessionCall.addFlags p.2 ["\\Flagged"]
           else SessionCall.removeFlags p.2 ["\\Flagged"]]) } := by
  simp [set_remote_starred, _set_flag, h]

/-- Witness for C7: the spec example, mappings (Inbox,5) and (Work,9) and
starring produce a flag-add of uid 5 on Inbox and uid 9 on Work. -/
theorem c7_starred_flags_per_folder_witness :
    set_remote_starred
        [ImapUidRow.mk 1 "Inbox" 5, ImapUidRow.mk 1 "Work" 9] 1 1 true =
      { warnings := [], infos := [], sessionAcquired := true,
        calls := [SessionCall.selectFolder "Inbox",
          SessionCall.addFlags [5] ["\\Flagged"],
          SessionCall.selectFolder "Work",
          SessionCall.addFlags [9] ["\\Flagged"]] } :=
  (c7_starred_flags_per_folder
    [ImapUidRow.mk 1 "Inbox" 5, ImapUidRow.mk 1 "Work" 9] 1 1 true
    (by decide)).trans (by decide)

/-- C9: `remote_delete_draft` never reads its `inbox_uid` argument: two
invocations differing only in it return the same drafts state, logs and
session-call trace. -/
theorem c9_delete_draft_ignores_inbox_uid (account_id : Nat)
    (uid1 uid2 message_id_header : String) (env : CrispinEnv)
    (drafts : List String) :
    remote_delete_draft account_id uid1 message_id_header env drafts =
      remote_delete_draft account_id uid2 message_id_header env drafts :=
  rfl

/-- Helper: updating the display name of the found category commutes with
`find?` on the same id predicate. -/
theorem find?_update_display (cats : List Category) (category_id : Nat)
    (category : Category) (nd : String)
    (h : cats.find? (fun c => c.id = category_id) = some category) :
    (updateDisplayName cats category_id nd).find?
      (fun c => c.id = category_id) =
      some { category with display_name := nd } := by
  induction cats with
  | nil => simp at h
  | cons x t ih =>
      by_cases hx : x.id = category_id
      · rw [List.find?_cons_of_pos _ (by simp [hx])] at h
        cases h
        simp [updateDisplayName, List.map_cons, List.find?_cons_of_pos, hx]
      · rw [List.find?_cons_of_neg _ (by simp [hx])] at h
        simp only [updateDisplayName, List.map_cons, if_neg hx]
        rw [List.find?_cons_of_neg _ (by simp [hx])]
        simpa [updateDisplayName] using ih h

/-- C6: with the category row present, `remote_create_folder` issues the
remote create with the translated name, and updates the category display
name to the translated name exactly when it differs from the original. -/
theorem c6_create_folder_translates_and_writes_back
    (account_provider : String) (env : CrispinEnv) (cats : List Category)
    (category_id : Nat) (category : Category)
    (h : cats.find? (fun c => c.id = category_id) = some category) :
    ∃ cats' r,
      remote_create_folder account_provider env cats category_id =
        Except.ok (cats', r) ∧
      r = { warnings := [], infos := [], sessionAcquired := true,
            calls := [SessionCall.createFolderCall
              (translateFolderName account_provider category.display_name
                env.separator env.prefixStr)] } ∧
      (translateFolderName account_provider category.display_name
          env.separator env.prefixStr ≠ category.display_name →
        displayNameOf cats' category_id =
          some (translateFolderName account_provider category.display_name
            env.separator env.prefixStr)) ∧
      (translateFolderName account_provider category.display_name
          env.separator env.prefixStr = category.display_name →
        cats' = cats) := by
  by_cases hc : translateFolderName account_provider category.display_name
      env.separator env.prefixStr = category.display_name
  · refine ⟨cats, _, ?_, rfl, fun hne => absurd hc hne, fun _ => rfl⟩
    simp [remote_create_folder, h, hc]
  · refine ⟨updateDisplayName cats category_id
      (translateFolderName account_provider category.display_name
        env.separator env.prefixStr), _, ?_, rfl, ?_,
      fun heq => absurd heq hc⟩
    · simp [remote_create_folder, h, hc]
    · intro _
      simp [displayNameOf,
        find?_update_display cats category_id category _ h]

/-- Witness for C6: the end-to-end example of the spec, a generic provider
with separator dot and prefix INBOX-dot on category Work/Invoices. -/
theorem c6_create_folder_witness :
    ∃ cats' r,
      remote_create_folder "generic" (CrispinEnv.mk "." "INBOX." [])
          [Category.mk 7 "Work/Invoices"] 7 =
        Except.ok (cats', r) ∧
      r = { warnings := [], infos := [], sessionAcquired := true,
            calls := [SessionCall.createFolderCall
              (translateFolderName "generic" "Work/Invoices" "."
                "INBOX.")] } ∧
      (translateFolderName "generic" "Work/Invoices" "." "INBOX." ≠
          "Work/Invoices" →
        displayNameOf cats' 7 =
          some (translateFolderName "generic" "Work/Invoices" "."
            "INBOX.")) ∧
      (translateFolderName "generic" "Work/Invoices" "." "INBOX." =
          "Work/Invoices" → cats' = [Category.mk 7 "Work/Invoices"]) :=
  c6_create_folder_translates_and_writes_back "generic"
    (CrispinEnv.mk "." "INBOX." []) [Category.mk 7 "Work/Invoices"] 7
    (Category.mk 7 "Work/Invoices") (by decide)

/-- C3: with the category row present, a remote delete that hits the
IMAP not-found protocol condition is treated as success and the local
category row is still deleted, exactly as on a clean success; any other
raised error propagates as an error before the local delete, leaving the
category rows unchanged (the row is still present). -/
theorem c3_delete_folder_swallows_not_found (account_provider : String)
    (env : CrispinEnv) (outcome : String → FolderDeleteOutcome)
    (cats : List Category) (category_id : Nat) (category : Category)
    (h : cats.find? (fun c => c.id = category_id) = some category) :
    (outcome (translateFolderName account_provider category.display_name
        env.separator env.prefixStr) = FolderDeleteOutcome.imapError →
      remote_delete_folder account_provider env outcome cats category_id =
        Except.ok (cats.filter (fun c => c.id ≠ category_id),
          { warnings := [], infos := [], sessionAcquired := true,
            calls := [SessionCall.deleteFolderCall
              (translateFolderName account_provider category.display_name
                env.separator env.prefixStr)] })) ∧
    (outcome (translateFolderName account_provider category.display_name
        env.separator env.prefixStr) = FolderDeleteOutcome.ok →
      remote_delete_folder account_provider env outcome cats category_id =
        Except.ok (cats.filter (fun c => c.id ≠ category_id),
          { warnings := [], infos := [], sessionAcquired := true,
            calls := [SessionCall.deleteFolderCall
              (translateFolderName account_provider category.display_name
                env.separator env.prefixStr)] })) ∧
    (outcome (translateFolderName account_provider category.display_name
        env.separator env.prefixStr) = FolderDeleteOutcome.otherError →
      remote_delete_folder account_provider env outcome cats category_id =
        Except.error ("ProtocolFailure", cats) ∧
      category ∈ cats) := by
  refine ⟨?_, ?_, ?_⟩ <;> intro ho
  · simp [remote_delete_folder, h, ho]
  · simp [remote_delete_folder, h, ho]
  · exact ⟨by simp [remote_delete_folder, h, ho],
      List.mem_of_find?_eq_some h⟩

/-- Witness for C3 at a concrete input: category Trash under gmail, once
with a swallowed not-found outcome and once with a fatal outcome. -/
theorem c3_delete_folder_witness :
    remote_delete_folder "gmail" (CrispinEnv.mk "." "" [])
        (fun _ => FolderDeleteOutcome.imapError) [Category.mk 3 "Trash"] 3 =
      Except.ok ([Category.mk 3 "Trash"].filter (fun c => c.id ≠ 3),
        { warnings := [], infos := [], sessionAcquired := true,
          calls := [SessionCall.deleteFolderCall
            (translateFolderName "gmail" "Trash" "." "")] }) ∧
    remote_delete_folder "gmail" (CrispinEnv.mk "." "" [])
        (fun _ => FolderDeleteOutcome.otherError) [Category.mk 3 "Trash"] 3 =
      Except.error ("ProtocolFailure", [Category.mk 3 "Trash"]) :=
  ⟨(c3_delete_folder_swallows_not_found "gmail" (CrispinEnv.mk "." "" [])
      (fun _ => FolderDeleteOutcome.imapError) [Category.mk 3 "Trash"] 3
      (Category.mk 3 "Trash") (by decide)).1 rfl,
   ((c3_delete_folder_swallows_not_found "gmail" (CrispinEnv.mk "." "" [])
      (fun _ => FolderDeleteOutcome.otherError) [Category.mk 3 "Trash"] 3
      (Category.mk 3 "Trash") (by decide)).2.2 rfl).1⟩

/-- Example message row used as a concrete input by witness theorems. -/
def msgEx : Message :=
  { attachments := [], from_addr := [("Ann", "ann@example.com")],
    reply_to := [], inbox_uid := "u1", to_addr := [], cc_addr := [],
    bcc_addr := [], subject := "s", body := "b", in_reply_to := "",
    references := [], message_id_header := "h", public_id := "p",
    version := 0 }

/-- Example message table holding only `msgEx` under id 1. -/
def dbEx : List (Nat × Message) := [(1, msgEx)]

/-- Example account. -/
def acctEx : Account := Account.mk "fastmail"

/-- Example session environment with a drafts folder and no sent folder. -/
def envDraftsOnly : CrispinEnv :=
  CrispinEnv.mk "." "" [("drafts", ["Drafts"])]

/-- C8: `remote_save_sent` returns normally with an info log, no session
acquisition and no remote call when the message row no longer exists; and
with an existing buildable message but no sent role in the folder mapping
it returns normally after only the folder-names query, without saving. -/
theorem c8_save_sent_noop_cases (account : Account)
    (db : List (Nat × Message)) (env : CrispinEnv) (message_id : Nat) :
    (getMessage db message_id = none →
      remote_save_sent account db env message_id =
        Except.ok
          { warnings := [],
            infos := ["tried to create nonexistent message"],
            sessionAcquired := false, calls := [] }) ∧
    (∀ message, getMessage db message_id = some message →
      message.from_addr ≠ [] →
      lookupRole env "sent" = none →
      remote_save_sent account db env message_id =
        Except.ok
          { warnings := [],
            infos := ["Account has no detected sent folder; not saving message"],
            sessionAcquired := true,
            calls := [SessionCall.folderNamesCall] }) := by
  constructor
  · intro h
    simp [remote_save_sent, h]
  · intro message hm hfa hrole
    rcases hx : message.from_addr with _ | ⟨⟨fn, fe⟩, tl⟩
    · exact absurd hx hfa
    · simp [remote_save_sent, hm, _create_email, hx, hrole]

/-- Witness for C8: a missing row (empty table) and, separately, an
existing message on an account with no sent folder. -/
theorem c8_save_sent_noop_witness :
    remote_save_sent acctEx [] envDraftsOnly 1 =
      Except.ok
        { warnings := [],
          infos := ["tried to create nonexistent message"],
          sessionAcquired := false, calls := [] } ∧
    remote_save_sent acctEx dbEx envDraftsOnly 1 =
      Except.ok
        { warnings := [],
          infos := ["Account has no detected sent folder; not saving message"],
          sessionAcquired := true,
          calls := [SessionCall.folderNamesCall] } :=
  ⟨(c8_save_sent_noop_cases acctEx [] envDraftsOnly 1).1 rfl,
   (c8_save_sent_noop_cases acctEx dbEx envDraftsOnly 1).2 msgEx rfl
     (by decide) rfl⟩

/-- C10: unlike `remote_save_sent`, the draft handlers perform no check
that the message row exists: with a missing row both raise out of the
message-building step instead of reaching a no-op return, and with an
existing row whose `from_addr` is non-empty the building step cannot
fail. -/
theorem c10_draft_handlers_require_message_row (account : Account)
    (db : List (Nat × Message)) (env : CrispinEnv) (drafts : List String)
    (message_id : Nat) (old_message_id_header : String) :
    (getMessage db message_id = none →
      remote_save_draft account db env drafts message_id =
        Except.error "AttributeError: NoneType has no attribute" ∧
      remote_update_draft account db env drafts message_id
          old_message_id_header =
        Except.error "AttributeError: NoneType has no attribute") ∧
    (∀ message, getMessage db message_id = some message →
      message.from_addr ≠ [] →
      ∃ mimemsg, _create_email account (some message) =
        Except.ok mimemsg) := by
  constructor
  · intro h
    constructor
    · simp [remote_save_draft, h, _create_email]
    · simp [remote_update_draft, h]
  · intro message _ hfa
    rcases hx : message.from_addr with _ | ⟨⟨fn, fe⟩, tl⟩
    · exact absurd hx hfa
    · refine ⟨?_, ?_⟩
      · exact
          { from_name := fn, from_email := fe,
            reply_to := message.reply_to, inbox_uid := message.inbox_uid,
            to_addr := message.to_addr, cc_addr := message.cc_addr,
            bcc_addr := message.bcc_addr, subject := message.subject,
            html := message.body, in_reply_to := message.in_reply_to,
            references := message.references,
            attachments := generate_attachments message.attachments,
            msgIdHeader := message.message_id_header }
      · simp [_create_email, hx]

/-- Helper: one fully-reduced run of `remote_update_draft` when the
message row exists, is buildable and the account has a drafts folder. -/
theorem update_draft_step (account : Account) (db : List (Nat × Message))
    (env : CrispinEnv) (d0 : List String) (message_id : Nat)
    (old_header : String) (message : Message) (fn fe : String)
    (tl : List (String × String)) (folder_name : String)
    (rest : List String)
    (hm : getMessage db message_id = some message)
    (hfa : message.from_addr = (fn, fe) :: tl)
    (hrole : lookupRole env "drafts" = some (folder_name :: rest)) :
    remote_update_draft account db env d0 message_id old_header =
      Except.ok
        ((delete_draft (if find_by_header d0 message.message_id_header
            then d0 else d0 ++ [message.message_id_header]) old_header).2,
         { warnings := [],
           infos :=
             (if find_by_header d0 message.message_id_header then
                ["Draft has been saved, will not create a duplicate."]
              else []) ++
             (if (delete_draft
                  (if find_by_header d0 message.message_id_header then d0
                   else d0 ++ [message.message_id_header]) old_header).1 then
                ["Cleaned up old draft"]
              else []),
           sessionAcquired := true,
           calls := [SessionCall.folderNamesCall,
             SessionCall.selectFolder folder_name,
             SessionCall.findByHeaderCall "Message-Id"
               message.message_id_header] ++
             (if find_by_header d0 message.message_id_header then []
              else [SessionCall.saveDraftCall message.message_id_header]) ++
             [SessionCall.deleteDraftCall old_header] }) := by
  cases hfb : find_by_header d0 message.message_id_header <;>
    simp [remote_update_draft, hm, _create_email, hfa, hrole, hfb,
      save_draft]

/-- Helper: deleting a draft by a different header keeps membership. -/
theorem mem_delete_draft_of_ne {a hdr : String} (hne : a ≠ hdr)
    {l : List String} (ha : a ∈ l) : a ∈ (delete_draft l hdr).2 := by
  unfold delete_draft
  by_cases hc : hdr ∈ l
  · simpa [hc] using (List.mem_erase_of_ne hne).mpr ha
  · simpa [hc] using ha

/-- Helper: `delete_draft` removes at most one element. -/
theorem delete_draft_length (l : List String) (hdr : String) :
    l.length ≤ ((delete_draft l hdr).2).length + 1 := by
  by_cases hc : hdr ∈ l
  · have h1 : (delete_draft l hdr).2 = l.erase hdr := by
      simp [delete_draft, hc]
    have hpos : 0 < l.length := List.length_pos.mpr
      (List.ne_nil_of_mem hc)
    rw [h1, List.length_erase_of_mem hc]
    omega
  · have h1 : (delete_draft l hdr).2 = l := by
      simp [delete_draft, hc]
    rw [h1]
    omega

/-- C2 (amended): `remote_update_draft` first searches the drafts folder
for a message whose Message-Id header equals the new message header and
appends the new draft only if no such message is found, then deletes at
most one draft matching the old Message-Id header; consequently, provided
the new message Message-Id header differs from the old one, invoking it
twice with identical arguments creates at most one new draft on the
remote. -/
theorem c2_update_draft_supersession (account : Account)
    (db : List (Nat × Message)) (env : CrispinEnv) (drafts : List String)
    (message_id : Nat) (old_header : String) (message : Message)
    (fn fe : String) (tl : List (String × String)) (folder_name : String)
    (rest : List String)
    (hm : getMessage db message_id = some message)
    (hfa : message.from_addr = (fn, fe) :: tl)
    (hrole : lookupRole env "drafts" = some (folder_name :: rest)) :
    (∃ drafts1 r1,
      remote_update_draft account db env drafts message_id old_header =
        Except.ok (drafts1, r1) ∧
      r1.calls =
        [SessionCall.folderNamesCall, SessionCall.selectFolder folder_name,
         SessionCall.findByHeaderCall "Message-Id"
           message.message_id_header] ++
        (if find_by_header drafts message.message_id_header then []
         else [SessionCall.saveDraftCall message.message_id_header]) ++
        [SessionCall.deleteDraftCall old_header] ∧
      drafts1 =
        (delete_draft (if find_by_header drafts message.message_id_header
          then drafts else drafts ++ [message.message_id_header])
          old_header).2 ∧
      (if find_by_header drafts message.message_id_header then drafts
        else drafts ++ [message.message_id_header]).length ≤
        drafts1.length + 1) ∧
    (message.message_id_header ≠ old_header →
      ∃ drafts1 r1 drafts2 r2,
        remote_update_draft account db env drafts message_id old_header =
          Except.ok (drafts1, r1) ∧
        remote_update_draft account db env drafts1 message_id old_header =
          Except.ok (drafts2, r2) ∧
        countSaveDrafts (r1.calls ++ r2.calls) ≤ 1) := by
  constructor
  · refine ⟨_, _,
      update_draft_step account db env drafts message_id old_header
        message fn fe tl folder_name rest hm hfa hrole, rfl, rfl, ?_⟩
    exact delete_draft_length _ old_header
  · intro hne
    have h1 := update_draft_step account db env drafts message_id
      old_header message fn fe tl folder_name rest hm hfa hrole
    have hmem : message.message_id_header ∈
        (if find_by_header drafts message.message_id_header then drafts
         else drafts ++ [message.message_id_header]) := by
      by_cases hfb : find_by_header drafts message.message_id_header = true
      · have hc : drafts.contains message.message_id_header = true := hfb
        simp [hfb, List.elem_iff.mp hc]
      · simp [hfb]
    have hmem1 : message.message_id_header ∈
        (delete_draft (if find_by_header drafts message.message_id_header
          then drafts else drafts ++ [message.message_id_header])
          old_header).2 :=
      mem_delete_draft_of_ne hne hmem
    have hfb2 : find_by_header
        (delete_draft (if find_by_header drafts message.message_id_header
          then drafts else drafts ++ [message.message_id_header])
          old_header).2 message.message_id_header = true :=
      List.elem_iff.mpr hmem1
    have h2 := update_draft_step account db env
      (delete_draft (if find_by_header drafts message.message_id_header
        then drafts else drafts ++ [message.message_id_header])
        old_header).2 message_id old_header message fn fe tl folder_name
      rest hm hfa hrole
    refine ⟨_, _, _, _, h1, h2, ?_⟩
    by_cases hfb : find_by_header drafts message.message_id_header = true
    · simp [hfb] at hfb2
      simp [countSaveDrafts, hfb, hfb2]
    · simp [hfb] at hfb2
      simp [countSaveDrafts, hfb, hfb2]

/-- C2 counterexample: with the new message Message-Id header equal to the
old header argument, two invocations with identical arguments append a
draft twice (the first-created draft is deleted again by the same call),
so more than one new draft is created on the remote across the retry. -/
theorem c2_update_draft_counterexample :
    ∃ drafts1 r1 drafts2 r2,
      remote_update_draft acctEx dbEx envDraftsOnly [] 1 "h" =
        Except.ok (drafts1, r1) ∧
      remote_update_draft acctEx dbEx envDraftsOnly drafts1 1 "h" =
        Except.ok (drafts2, r2) ∧
      countSaveDrafts (r1.calls ++ r2.calls) = 2 := by
  refine ⟨[],
    { warnings := [], infos := ["Cleaned up old draft"],
      sessionAcquired := true,
      calls := [SessionCall.folderNamesCall,
        SessionCall.selectFolder "Drafts",
        SessionCall.findByHeaderCall "Message-Id" "h",
        SessionCall.saveDraftCall "h",
        SessionCall.deleteDraftCall "h"] }, [],
    { warnings := [], infos := ["Cleaned up old draft"],
      sessionAcquired := true,
      calls := [SessionCall.folderNamesCall,
        SessionCall.selectFolder "Drafts",
        SessionCall.findByHeaderCall "Message-Id" "h",
        SessionCall.saveDraftCall "h",
        SessionCall.deleteDraftCall "h"] }, ?_, ?_, ?_⟩
  · rfl
  · rfl
  · rfl

/-- Witness for C2: an existing buildable message whose header differs
from the old header; two runs create at most one draft. -/
theorem c2_update_draft_witness :
    ∃ drafts1 r1 drafts2 r2,
      remote_update_draft acctEx dbEx envDraftsOnly [] 1 "old-h" =
        Except.ok (drafts1, r1) ∧
      remote_update_draft acctEx dbEx envDraftsOnly drafts1 1 "old-h" =
        Except.ok (drafts2, r2) ∧
      countSaveDrafts (r1.calls ++ r2.calls) ≤ 1 :=
  (c2_update_draft_supersession acctEx dbEx envDraftsOnly [] 1 "old-h"
    msgEx "Ann" "ann@example.com" [] "Drafts" [] rfl rfl rfl).2
    (by decide)

/-- Witness for C10: missing row on an empty table, and a buildable
message. -/
theorem c10_draft_handlers_witness :
    (remote_save_draft acctEx [] envDraftsOnly [] 1 =
      Except.error "AttributeError: NoneType has no attribute" ∧
     remote_update_draft acctEx [] envDraftsOnly [] 1 "old" =
      Except.error "AttributeError: NoneType has no attribute") ∧
    (∃ mimemsg, _create_email acctEx (some msgEx) = Except.ok mimemsg) :=
  ⟨(c10_draft_handlers_require_message_row acctEx [] envDraftsOnly [] 1
      "old").1 rfl,
   (c10_draft_handlers_require_message_row acctEx dbEx envDraftsOnly [] 1
      "old").2 msgEx rfl (by decide)⟩

end SyncEngine
